import Mathlib

/-!
Shallow embedding of the teleconnect bot core (src/main.py, src/config.py):
input validators, the ad-creation conversation flow, the edit/delete and
report branches of the button handler, and the single-field update handler,
together with a relational-store model (users, ads, ad_reports).
-/

namespace Teleconnect

/-! ### Validators (src/main.py lines 40-51)

`is_valid_text` embeds `re.fullmatch(r"[א-תA-Za-z\s\-]+", text)`:
a non-empty string of Hebrew letters (U+05D0..U+05EA), Latin letters,
whitespace and hyphens.  `is_valid_phone` embeds
`re.fullmatch(r"\d{7,15}", phone)`: 7 to 15 digits matched in full. -/

def isHebrewLetter (c : Char) : Bool :=
  0x05D0 ≤ c.toNat && c.toNat ≤ 0x05EA

def is_valid_text (s : String) : Bool :=
  !s.toList.isEmpty &&
    s.toList.all (fun c => isHebrewLetter c || c.isAlpha || c.isWhitespace || c = '-')

/-- The Unicode general-category-Nd (decimal digit) code-point ranges,
as in the Unicode character database CPython's `re` module consults:
in a `str` pattern without `re.ASCII`, `\d` matches exactly these
characters, not only the ASCII digits. -/
def ndRanges : List (Nat × Nat) :=
  [(0x30, 0x39), (0x660, 0x669), (0x6F0, 0x6F9), (0x7C0, 0x7C9),
   (0x966, 0x96F), (0x9E6, 0x9EF), (0xA66, 0xA6F), (0xAE6, 0xAEF),
   (0xB66, 0xB6F), (0xBE6, 0xBEF), (0xC66, 0xC6F), (0xCE6, 0xCEF),
   (0xD66, 0xD6F), (0xDE6, 0xDEF), (0xE50, 0xE59), (0xED0, 0xED9),
   (0xF20, 0xF29), (0x1040, 0x1049), (0x1090, 0x1099), (0x17E0, 0x17E9),
   (0x1810, 0x1819), (0x1946, 0x194F), (0x19D0, 0x19D9), (0x1A80, 0x1A89),
   (0x1A90, 0x1A99), (0x1B50, 0x1B59), (0x1BB0, 0x1BB9), (0x1C40, 0x1C49),
   (0x1C50, 0x1C59), (0xA620, 0xA629), (0xA8D0, 0xA8D9), (0xA900, 0xA909),
   (0xA9D0, 0xA9D9), (0xA9F0, 0xA9F9), (0xAA50, 0xAA59), (0xABF0, 0xABF9),
   (0xFF10, 0xFF19), (0x104A0, 0x104A9), (0x10D30, 0x10D39),
   (0x11066, 0x1106F), (0x110F0, 0x110F9), (0x11136, 0x1113F),
   (0x111D0, 0x111D9), (0x112F0, 0x112F9), (0x11450, 0x11459),
   (0x114D0, 0x114D9), (0x11650, 0x11659), (0x116C0, 0x116C9),
   (0x11730, 0x11739), (0x118E0, 0x118E9), (0x11950, 0x11959),
   (0x11C50, 0x11C59), (0x11D50, 0x11D59), (0x11DA0, 0x11DA9),
   (0x16A60, 0x16A69), (0x16AC0, 0x16AC9), (0x16B50, 0x16B59),
   (0x1D7CE, 0x1D7FF), (0x1E140, 0x1E149), (0x1E2F0, 0x1E2F9),
   (0x1E950, 0x1E959), (0x1FBF0, 0x1FBF9)]

/-- A character matched by Python's `\d` in a `str` pattern: any Unicode
decimal digit (general category Nd), of which the ASCII digits are only
the first range. -/
def pyIsDigit (c : Char) : Bool :=
  ndRanges.any (fun r => r.1 ≤ c.toNat && c.toNat ≤ r.2)

def is_valid_phone (s : String) : Bool :=
  (7 ≤ s.length && s.length ≤ 15) && s.toList.all pyIsDigit

/-! ### Dates (src/main.py `is_valid_date`, lines 46-51)

`datetime.strptime(date_str, "%Y-%m-%d").date()` accepts a four-digit year,
a one- or two-digit month in 1..12, a one- or two-digit day, separated by
single hyphens with nothing left over, and then the `date` constructor
requires the day to fit the month (and the year to be positive).  The
parsed date is compared against today's date; a parse failure returns
false via the `except ValueError` branch. -/

structure PyDate where
  year : Nat
  month : Nat
  day : Nat
deriving DecidableEq, Repr

def dateLe (a b : PyDate) : Bool :=
  a.year < b.year ||
    (a.year = b.year && (a.month < b.month ||
      (a.month = b.month && a.day ≤ b.day)))

def isLeap (y : Nat) : Bool :=
  y % 4 = 0 && (y % 100 ≠ 0 || y % 400 = 0)

def daysInMonth (y m : Nat) : Nat :=
  if m = 2 then (if isLeap y then 29 else 28)
  else if m = 4 || m = 6 || m = 9 || m = 11 then 30
  else 31

def digitsToNat (cs : List Char) : Nat :=
  cs.foldl (fun n c => 10 * n + (c.toNat - 48)) 0

def allDigits (cs : List Char) : Bool :=
  !cs.isEmpty && cs.all Char.isDigit

def splitOnChar (sep : Char) : List Char → List (List Char)
  | [] => [[]]
  | c :: rest =>
    let r := splitOnChar sep rest
    if c = sep then [] :: r
    else
      match r with
      | [] => [[c]]
      | h :: t => (c :: h) :: t

def parse_date (s : String) : Option PyDate :=
  match splitOnChar '-' s.toList with
  | [yc, mc, dc] =>
    if yc.length = 4 && allDigits yc &&
       1 ≤ mc.length && mc.length ≤ 2 && allDigits mc &&
       1 ≤ dc.length && dc.length ≤ 2 && allDigits dc then
      let y := digitsToNat yc
      let m := digitsToNat mc
      let d := digitsToNat dc
      if 1 ≤ y && 1 ≤ m && m ≤ 12 && 1 ≤ d && d ≤ daysInMonth y m then
        some ⟨y, m, d⟩
      else none
    else none
  | _ => none

def is_valid_date (today : PyDate) (s : String) : Bool :=
  match parse_date s with
  | some d => dateLe today d
  | none => false

/-- Python `str.strip()` with no arguments: remove leading and trailing
whitespace. -/
def pyStrip (s : String) : String :=
  ⟨((s.toList.dropWhile Char.isWhitespace).reverse.dropWhile
      Char.isWhitespace).reverse⟩

/-- Python `int()` applied to an already-stripped string: an optional sign
followed by at least one digit (src/main.py `int(update.message.text.strip())`
and `int(value)` in `update_ad_value`). -/
def pyInt (s : String) : Option Int :=
  match s.toList with
  | '+' :: rest => if allDigits rest then some (Int.ofNat (digitsToNat rest)) else none
  | '-' :: rest => if allDigits rest then some (-(Int.ofNat (digitsToNat rest))) else none
  | cs => if allDigits cs then some (Int.ofNat (digitsToNat cs)) else none

/-! ### Relational-store model

Rows of the three tables `users`, `ads`, `ad_reports` (spec section 6 /
the columns used by the SQL statements in src/main.py), and a trace
alphabet of the store statements those handlers execute. -/

structure UserRow where
  user_id : Nat
  username : Option String
  first_name : Option String
  last_name : Option String
deriving DecidableEq, Repr

structure AdRow where
  id : Nat
  user_id : Nat
  name : String
  phone : String
  area : String
  city : String
  capacity : Int
  date_available : String
deriving DecidableEq, Repr

structure ReportRow where
  ad_id : Nat
  user_id : Nat
  reported_at : Nat
deriving DecidableEq, Repr

structure DB where
  users : List UserRow
  ads : List AdRow
  reports : List ReportRow
  next_ad_id : Nat
deriving DecidableEq, Repr

/-- A value bound into a SQL statement: a string parameter or, after the
capacity coercion `value = int(value)`, an integer parameter. -/
inductive PyVal
  | s (v : String)
  | i (v : Int)
deriving DecidableEq, Repr

/-- The mutating store statements executed by the handlers in src/main.py. -/
inductive Stmt
  | upsertUserStmt (user_id : Nat) (username first_name last_name : Option String)
  | insertAdStmt (user_id : Nat) (name phone area city : String)
      (capacity : Int) (date_available : String)
  | deleteAdOwned (ad_id user_id : Nat)
  | updateAds (field : String) (value : PyVal) (ad_id user_id : Nat)
  | insertReport (ad_id user_id reported_at : Nat)
  | deleteAd (ad_id : Nat)
deriving DecidableEq, Repr

structure UserInfo where
  id : Nat
  username : Option String
  first_name : Option String
  last_name : Option String
deriving DecidableEq, Repr

/-- Embeds `INSERT INTO users ... ON DUPLICATE KEY UPDATE ...`
(src/main.py lines 199-203): insert keyed by `user_id`, or update the
other three columns in place when the key already exists. -/
def upsertUser (users : List UserRow) (u : UserInfo) : List UserRow :=
  if users.any (fun r => r.user_id == u.id) then
    users.map (fun r =>
      if r.user_id == u.id then
        { r with username := u.username, first_name := u.first_name,
                 last_name := u.last_name }
      else r)
  else users ++ [⟨u.id, u.username, u.first_name, u.last_name⟩]

/-! ### Conversation state machine (src/main.py lines 29, 128-217)

States as in `NAME, PHONE, AREA, CITY, CAPACITY, DATE, EDIT_FIELD,
EDIT_VALUE = range(8)`, plus `COMPLETE` for `ConversationHandler.END`. -/

inductive ConvState
  | NAME
  | PHONE
  | AREA
  | CITY
  | CAPACITY
  | DATE
  | EDIT_FIELD
  | EDIT_VALUE
  | COMPLETE
deriving DecidableEq, Repr

/-- The per-user draft accumulated in `context.user_data` during creation. -/
structure Draft where
  name : Option String := none
  phone : Option String := none
  area : Option String := none
  city : Option String := none
  capacity : Option Int := none
  date : Option String := none
deriving DecidableEq, Repr

/-- An inbound event: a typed text message or a button press carrying
callback data. -/
inductive Input
  | text (msg : String)
  | callback (data : String)
deriving DecidableEq, Repr

/-- Embeds `get_name` (src/main.py lines 133-141). -/
def get_name (d : Draft) (msg : String) : ConvState × Draft :=
  let name := (pyStrip msg)
  if is_valid_text name then (ConvState.PHONE, { d with name := some name })
  else (ConvState.NAME, d)

/-- Embeds `get_phone` (src/main.py lines 142-158). -/
def get_phone (d : Draft) (msg : String) : ConvState × Draft :=
  let phone := (pyStrip msg)
  if is_valid_phone phone then (ConvState.AREA, { d with phone := some phone })
  else (ConvState.PHONE, d)

/-- Embeds `get_area` (src/main.py lines 160-164): stores
`callback_query.data.split(":")[1]` with no further validation. -/
def get_area (d : Draft) (data : String) : ConvState × Draft :=
  (ConvState.CITY,
   { d with area := some ⟨(splitOnChar ':' data.toList).getD 1 []⟩ })

/-- Embeds `get_city` (src/main.py lines 166-174). -/
def get_city (d : Draft) (msg : String) : ConvState × Draft :=
  let city := (pyStrip msg)
  if is_valid_text city then (ConvState.CAPACITY, { d with city := some city })
  else (ConvState.CITY, d)

/-- Embeds `get_capacity` (src/main.py lines 176-186): `int(...)` coercion plus the
1..100 bound; both failures re-prompt. -/
def get_capacity (d : Draft) (msg : String) : ConvState × Draft :=
  match pyInt (pyStrip msg) with
  | some v =>
    if 1 ≤ v ∧ v ≤ 100 then (ConvState.DATE, { d with capacity := some v })
    else (ConvState.CAPACITY, d)
  | none => (ConvState.CAPACITY, d)

/-- Embeds `get_date` (src/main.py lines 188-217).  On an invalid date: re-prompt.
On a valid date: store it in the draft, then on one connection execute the
user upsert and the ad insert and commit once; the returned trace groups
the statements by `conn.commit()` call.  Reading a missing draft key would
raise `KeyError` in the source; that is modelled as `none`. -/
def get_date (today : PyDate) (u : UserInfo) (db : DB) (d : Draft)
    (msg : String) : Option (DB × ConvState × Draft × List (List Stmt)) :=
  let date_str := (pyStrip msg)
  if !is_valid_date today date_str then some (db, ConvState.DATE, d, [])
  else
    match d.name, d.phone, d.area, d.city, d.capacity with
    | some n, some p, some ar, some c, some cap =>
      let d' := { d with date := some date_str }
      let newAd : AdRow := ⟨db.next_ad_id, u.id, n, p, ar, c, cap, date_str⟩
      some ({ db with users := upsertUser db.users u,
                      ads := db.ads ++ [newAd],
                      next_ad_id := db.next_ad_id + 1 },
            ConvState.COMPLETE, d',
            [[Stmt.upsertUserStmt u.id u.username u.first_name u.last_name,
              Stmt.insertAdStmt u.id n p ar c cap date_str]])
    | _, _, _, _, _ => none

/-- One step of the creation flow: the `ConversationHandler` states map
text messages to `get_name/get_phone/get_city/get_capacity/get_date` and
`area:` button presses to `get_area` (src/main.py lines 464-480). -/
def creation_step (today : PyDate) (u : UserInfo) (db : DB)
    (st : ConvState) (d : Draft) (i : Input) : Option (ConvState × Draft) :=
  match st, i with
  | ConvState.NAME, Input.text m => some (get_name d m)
  | ConvState.PHONE, Input.text m => some (get_phone d m)
  | ConvState.AREA, Input.callback data => some (get_area d data)
  | ConvState.CITY, Input.text m => some (get_city d m)
  | ConvState.CAPACITY, Input.text m => some (get_capacity d m)
  | ConvState.DATE, Input.text m =>
    (get_date today u db d m).map (fun r => (r.2.1, r.2.2.1))
  | _, _ => none

/-! ### Button handler branches (src/main.py `handle_buttons`) -/

/-- The `delete:` branch (src/main.py lines 275-285):
`DELETE FROM ads WHERE id = %s AND user_id = %s`, committed at once. -/
def delete_ad (db : DB) (ad_id user_id : Nat) : DB × List Stmt :=
  ({ db with ads := db.ads.filter (fun a => !(a.id == ad_id && a.user_id == user_id)) },
   [Stmt.deleteAdOwned ad_id user_id])

inductive ReportReply
  | alreadyReported
  | autoDeleted
  | recorded
deriving DecidableEq, Repr

def countUserReports (db : DB) (ad_id user_id : Nat) : Nat :=
  (db.reports.filter (fun r => r.ad_id == ad_id && r.user_id == user_id)).length

def countReports (db : DB) (ad_id : Nat) : Nat :=
  (db.reports.filter (fun r => r.ad_id == ad_id)).length

/-- The `report:` branch (src/main.py lines 317-354): reject when a report
by this user on this ad already exists; otherwise insert the report and
commit, recount the ad's reports, and when the count reaches 3 delete the
ad (unscoped by owner) and commit again. -/
def handle_report (db : DB) (ad_id user_id now : Nat) : DB × List Stmt × ReportReply :=
  if countUserReports db ad_id user_id ≠ 0 then (db, [], ReportReply.alreadyReported)
  else
    if countReports { db with reports := db.reports ++ [⟨ad_id, user_id, now⟩] } ad_id ≥ 3 then
      ({ db with reports := db.reports ++ [⟨ad_id, user_id, now⟩],
                 ads := db.ads.filter (fun a => !(a.id == ad_id)) },
       [Stmt.insertReport ad_id user_id now, Stmt.deleteAd ad_id],
       ReportReply.autoDeleted)
    else
      ({ db with reports := db.reports ++ [⟨ad_id, user_id, now⟩] },
       [Stmt.insertReport ad_id user_id now], ReportReply.recorded)

/-! ### Single-field edit (src/main.py `update_ad_value`, lines 362-408) -/

/-- The per-user `context.user_data` keys read by `update_ad_value`:
`edit_field` (set by the `field:` branch) and `edit_value` (set by the
`value:` branch); a missing key is `none`. -/
structure Session where
  edit_field : Option String := none
  edit_value : Option String := none
deriving DecidableEq, Repr

/-- The fixed allow-list of updatable listing columns required by the spec
(`name|phone|area|city|capacity|date_available`). -/
def allowListFields : List String :=
  ["name", "phone", "area", "city", "capacity", "date_available"]

def pyValStr : PyVal → String
  | PyVal.s v => v
  | PyVal.i v => toString v

def pyValInt : PyVal → Int
  | PyVal.s _ => 0
  | PyVal.i v => v

/-- Effect of `UPDATE ads SET {field} = %s` on a single matched row, for
the six real columns of `ads`; any other interpolated field name has no
corresponding column (the real statement errors against the schema). -/
def setAdField (a : AdRow) (field : String) (v : PyVal) : AdRow :=
  if field = "name" then { a with name := pyValStr v }
  else if field = "phone" then { a with phone := pyValStr v }
  else if field = "area" then { a with area := pyValStr v }
  else if field = "city" then { a with city := pyValStr v }
  else if field = "capacity" then { a with capacity := pyValInt v }
  else if field = "date_available" then { a with date_available := pyValStr v }
  else a

inductive EditOutcome
  | endNoAd
  | stayInvalid
  | endUpdated
deriving DecidableEq, Repr

/-- Embeds `update_ad_value` (src/main.py lines 362-408).  `ad_editing_entry` is
`ad_editing.get(user_id)`; `if not ad_id` treats both a missing entry and
`0` as falsy.  The value written is `user_data['edit_value']` when that
key is present, otherwise the stripped message text.  Per-field checks:
phone shape, capacity `int` coercion with the 1..100 bound, date validity;
each failure re-prompts without touching the store.  Otherwise the source
interpolates the field name into
`UPDATE ads SET {field} = %s WHERE id = %s AND user_id = %s` and commits;
a `None` field renders as the literal string "None".  The session is
returned unchanged: no key is ever removed. -/
def update_ad_value (today : PyDate) (db : DB) (user_id : Nat)
    (ad_editing_entry : Option Nat) (sess : Session) (msg_text : String) :
    DB × Session × List Stmt × EditOutcome :=
  let falsy : Bool := match ad_editing_entry with
    | none => true
    | some a => a == 0
  if falsy then (db, sess, [], EditOutcome.endNoAd)
  else
    let aid := ad_editing_entry.getD 0
    let field := sess.edit_field
    let value : String := match sess.edit_value with
      | some v => v
      | none => pyStrip msg_text
    if field == some "phone" && !is_valid_phone value then
      (db, sess, [], EditOutcome.stayInvalid)
    else
      let coerced : Option PyVal :=
        if field == some "capacity" then
          match pyInt value with
          | some v => if 1 ≤ v ∧ v ≤ 100 then some (PyVal.i v) else none
          | none => none
        else some (PyVal.s value)
      match coerced with
      | none => (db, sess, [], EditOutcome.stayInvalid)
      | some pv =>
        if field == some "date" && !is_valid_date today value then
          (db, sess, [], EditOutcome.stayInvalid)
        else
          let fname := match field with
            | some f => f
            | none => "None"
          ({ db with ads := db.ads.map (fun a =>
              if a.id == aid && a.user_id == user_id then setAdField a fname pv else a) },
           sess, [Stmt.updateAds fname pv aid user_id], EditOutcome.endUpdated)

/-! ### Spec-shaped decomposition of the creation flow

The creation-flow order, acceptance condition and draft update that the
spec describes, to be proved equal to `creation_step`. -/

def nextState : ConvState → ConvState
  | ConvState.NAME => ConvState.PHONE
  | ConvState.PHONE => ConvState.AREA
  | ConvState.AREA => ConvState.CITY
  | ConvState.CITY => ConvState.CAPACITY
  | ConvState.CAPACITY => ConvState.DATE
  | ConvState.DATE => ConvState.COMPLETE
  | s => s

def stepAccepts (today : PyDate) (st : ConvState) (i : Input) : Bool :=
  match st, i with
  | ConvState.NAME, Input.text m => is_valid_text (pyStrip m)
  | ConvState.PHONE, Input.text m => is_valid_phone (pyStrip m)
  | ConvState.AREA, Input.callback _ => true
  | ConvState.CITY, Input.text m => is_valid_text (pyStrip m)
  | ConvState.CAPACITY, Input.text m =>
    match pyInt (pyStrip m) with
    | some v => decide (1 ≤ v ∧ v ≤ 100)
    | none => false
  | ConvState.DATE, Input.text m => is_valid_date today (pyStrip m)
  | _, _ => false

def stepStore (st : ConvState) (d : Draft) (i : Input) : Draft :=
  match st, i with
  | ConvState.NAME, Input.text m => { d with name := some (pyStrip m) }
  | ConvState.PHONE, Input.text m => { d with phone := some (pyStrip m) }
  | ConvState.AREA, Input.callback data =>
    { d with area := some ⟨(splitOnChar ':' data.toList).getD 1 []⟩ }
  | ConvState.CITY, Input.text m => { d with city := some (pyStrip m) }
  | ConvState.CAPACITY, Input.text m => { d with capacity := pyInt (pyStrip m) }
  | ConvState.DATE, Input.text m => { d with date := some (pyStrip m) }
  | _, _ => d

/-- A step of the creation flow is ready to fire: the state is one of the
six creation states, the input is of the kind the dispatcher routes to it,
and at `DATE` the draft has been fully accumulated. -/
def stepReady (st : ConvState) (d : Draft) (i : Input) : Bool :=
  match st, i with
  | ConvState.NAME, Input.text _ => true
  | ConvState.PHONE, Input.text _ => true
  | ConvState.AREA, Input.callback _ => true
  | ConvState.CITY, Input.text _ => true
  | ConvState.CAPACITY, Input.text _ => true
  | ConvState.DATE, Input.text _ =>
    d.name.isSome && d.phone.isSome && d.area.isSome &&
      d.city.isSome && d.capacity.isSome
  | _, _ => false

/-! ### Helper lemmas -/

theorem filter_self_of_all {α : Type} (p : α → Bool) (l : List α)
    (h : ∀ x ∈ l, p x = true) : l.filter p = l := by
  induction l with
  | nil => rfl
  | cons x xs ih =>
    simp only [List.filter_cons, h x (by simp)]
    exact congrArg (x :: ·) (ih (fun y hy => h y (by simp [hy])))

theorem map_ite_eq_self {α : Type} (p : α → Bool) (g : α → α) (l : List α)
    (h : ∀ x ∈ l, p x = false) : (l.map fun a => if p a then g a else a) = l := by
  induction l with
  | nil => rfl
  | cons x xs ih =>
    simp only [List.map_cons, h x (by simp)]
    simp only [Bool.false_eq_true, if_false]
    exact congrArg (x :: ·) (ih (fun y hy => h y (by simp [hy])))

/-! ### Claim theorems -/

/-- Counterexample for C8: the seven Arabic-Indic digits ٠١٢٣٤٥٦ are
accepted by `is_valid_phone` although not one of them is an ASCII digit —
Python's `\d` matches all Unicode decimal digits — refuting both the
claimed ASCII-digits-only iff and the claimed rejection of every string
containing a non-ASCII-digit character. -/
theorem phone_validator_ascii_cex :
    is_valid_phone "٠١٢٣٤٥٦" = true ∧
    "٠١٢٣٤٥٦".toList.all (fun c => !c.isDigit) = true := by
  refine ⟨?_, ?_⟩ <;> decide

/-- C8 (amended): `is_valid_phone s` is true iff `s` is a string of 7 to
15 Unicode decimal digits matched in full (ASCII digits being the usual
case); any string of length 6 or of length 16 is rejected, and so is any
string containing a character that is not a Unicode decimal digit. -/
theorem phone_validator_spec (s : String) :
    (is_valid_phone s = true ↔
      7 ≤ s.length ∧ s.length ≤ 15 ∧ ∀ c ∈ s.toList, pyIsDigit c = true) ∧
    (s.length = 6 → is_valid_phone s = false) ∧
    (s.length = 16 → is_valid_phone s = false) ∧
    (∀ c ∈ s.toList, pyIsDigit c = false → is_valid_phone s = false) := by
  have hiff : is_valid_phone s = true ↔
      7 ≤ s.length ∧ s.length ≤ 15 ∧ ∀ c ∈ s.toList, pyIsDigit c = true := by
    simp [is_valid_phone, List.all_eq_true, and_assoc]
  refine ⟨hiff, ?_, ?_, ?_⟩
  · intro h6
    cases hb : is_valid_phone s with
    | false => rfl
    | true =>
      have := (hiff.mp hb).1
      rw [h6] at this
      omega
  · intro h16
    cases hb : is_valid_phone s with
    | false => rfl
    | true =>
      have := (hiff.mp hb).2.1
      rw [h16] at this
      omega
  · intro c hc hcd
    cases hb : is_valid_phone s with
    | false => rfl
    | true =>
      have := (hiff.mp hb).2.2 c hc
      rw [hcd] at this
      exact absurd this (by simp)

/-- Witness for C8: the phone validator accepts a 10-digit string and
rejects a 6-digit one, via `phone_validator_spec`. -/
theorem phone_validator_spec_witness :
    is_valid_phone "0501234567" = true ∧ is_valid_phone "050123" = false :=
  ⟨(phone_validator_spec "0501234567").1.mpr (by decide),
   (phone_validator_spec "050123").2.1 (by decide)⟩

/-- C9: `is_valid_date today s` is true iff `s` parses as a `YYYY-MM-DD`
calendar date on or after `today`; a parse failure and a past date both
yield the same `false` (the function is total, never raising); and while
today lies between 2000-01-01 and 2099-01-01, "2099-01-01" validates,
"2000-01-01" does not, and "not-a-date" does not. -/
theorem date_validator_spec (today : PyDate) (s : String) :
    (is_valid_date today s = true ↔
      ∃ d, parse_date s = some d ∧ dateLe today d = true) ∧
    (parse_date s = none → is_valid_date today s = false) ∧
    (∀ d, parse_date s = some d → dateLe today d = false →
      is_valid_date today s = false) ∧
    (dateLe today ⟨2099, 1, 1⟩ = true → is_valid_date today "2099-01-01" = true) ∧
    (dateLe today ⟨2000, 1, 1⟩ = false → is_valid_date today "2000-01-01" = false) ∧
    is_valid_date today "not-a-date" = false := by
  have h99 : parse_date "2099-01-01" = some ⟨2099, 1, 1⟩ := by decide
  have h00 : parse_date "2000-01-01" = some ⟨2000, 1, 1⟩ := by decide
  have hnad : parse_date "not-a-date" = none := by decide
  refine ⟨?_, ?_, ?_, ?_, ?_, ?_⟩
  · unfold is_valid_date
    cases hp : parse_date s <;> simp [hp]
  · intro hp
    simp [is_valid_date, hp]
  · intro d hp hlt
    simp [is_valid_date, hp, hlt]
  · intro h
    simp [is_valid_date, h99, h]
  · intro h
    simp [is_valid_date, h00, h]
  · simp [is_valid_date, hnad]

/-- Witness for C9: at the concrete validation-time date 2026-10-12, the
three example strings evaluate as the claim says, via
`date_validator_spec`. -/
theorem date_validator_spec_witness :
    is_valid_date ⟨2026, 10, 12⟩ "2099-01-01" = true ∧
    is_valid_date ⟨2026, 10, 12⟩ "2000-01-01" = false ∧
    is_valid_date ⟨2026, 10, 12⟩ "not-a-date" = false :=
  ⟨(date_validator_spec ⟨2026, 10, 12⟩ "x").2.2.2.1 (by decide),
   (date_validator_spec ⟨2026, 10, 12⟩ "x").2.2.2.2.1 (by decide),
   (date_validator_spec ⟨2026, 10, 12⟩ "not-a-date").2.2.2.2.2⟩

/-- Concrete store: one ad (id 7, owner 10), no reports. -/
def dbOneAd : DB :=
  ⟨[⟨10, none, none, none⟩],
   [⟨7, 10, "Dana", "0501234567", "צפון", "Haifa", 4, "2099-01-01"⟩], [], 8⟩

/-- Concrete store: ad 7 already carries two reports, by users 20 and 21. -/
def dbTwoReports : DB :=
  ⟨[⟨10, none, none, none⟩],
   [⟨7, 10, "Dana", "0501234567", "צפון", "Haifa", 4, "2099-01-01"⟩],
   [⟨7, 20, 0⟩, ⟨7, 21, 0⟩], 8⟩

/-- Concrete store with no ads at all. -/
def dbNoAds : DB := ⟨[], [], [], 1⟩

/-- C4: a report by a user who already reported this listing is rejected
with the already-reported signal and leaves the store completely
unchanged: no report row, no count change, no deletion. -/
theorem duplicate_report_rejected (db : DB) (ad u now : Nat)
    (hdup : countUserReports db ad u ≠ 0) :
    handle_report db ad u now = (db, [], ReportReply.alreadyReported) := by
  simp [handle_report, hdup]

/-- Witness for C4: user 20 reports ad 7 a second time; the store is
returned unchanged with the already-reported signal, via
`duplicate_report_rejected`. -/
theorem duplicate_report_rejected_witness :
    handle_report dbTwoReports 7 20 1 = (dbTwoReports, [], ReportReply.alreadyReported) :=
  duplicate_report_rejected dbTwoReports 7 20 1 (by decide)

/-- The inserted report raises the recomputed count by one. -/
theorem countReports_insert (db : DB) (ad u now : Nat) :
    countReports { db with reports := db.reports ++ [⟨ad, u, now⟩] } ad
      = countReports db ad + 1 := by
  simp [countReports, List.filter_append]

/-- C3: when a fresh report (no prior report by this user) arrives on a
listing that already has at least two reports, the recomputed count is at
least 3, so the handler signals auto-deletion and deletes the listing;
this fires for any count reaching or exceeding the threshold, and when the
listing row is already gone the delete statement touches nothing. -/
theorem report_threshold_deletes (db : DB) (ad u now : Nat)
    (hnew : countUserReports db ad u = 0) (hcnt : 2 ≤ countReports db ad) :
    (handle_report db ad u now).2.2 = ReportReply.autoDeleted ∧
    (handle_report db ad u now).1.ads = db.ads.filter (fun a => !(a.id == ad)) ∧
    ((∀ a ∈ db.ads, a.id ≠ ad) → (handle_report db ad u now).1.ads = db.ads) := by
  have hge : countReports { db with reports := db.reports ++ [⟨ad, u, now⟩] } ad ≥ 3 := by
    rw [countReports_insert]
    omega
  have hh : handle_report db ad u now =
      ({ db with reports := db.reports ++ [⟨ad, u, now⟩],
                 ads := db.ads.filter (fun a => !(a.id == ad)) },
       [Stmt.insertReport ad u now, Stmt.deleteAd ad],
       ReportReply.autoDeleted) := by
    simp [handle_report, hnew, hge]
  refine ⟨by rw [hh], by rw [hh], ?_⟩
  intro hgone
  rw [hh]
  exact filter_self_of_all _ _ (fun a ha => by simpa using hgone a ha)

/-- Witness for C3: a third distinct user reports ad 7, which already has
two reports; the handler auto-deletes it, via `report_threshold_deletes`. -/
theorem report_threshold_deletes_witness :
    (handle_report dbTwoReports 7 22 1).2.2 = ReportReply.autoDeleted ∧
    (handle_report dbTwoReports 7 22 1).1.ads
      = dbTwoReports.ads.filter (fun a => !(a.id == 7)) :=
  ⟨(report_threshold_deletes dbTwoReports 7 22 1 (by decide) (by decide)).1,
   (report_threshold_deletes dbTwoReports 7 22 1 (by decide) (by decide)).2.1⟩

/-- Counterexample for C5: a report against the missing listing id 999 is
signalled as the ordinary recorded outcome — byte-for-byte the same signal
as a successful report on an existing listing — and a report row for the
missing id is even inserted; there is no distinct not-found outcome. -/
theorem report_missing_not_found_cex :
    (handle_report dbNoAds 999 5 0).2.2 = ReportReply.recorded ∧
    (handle_report dbNoAds 999 5 0).1.reports = [⟨999, 5, 0⟩] ∧
    (handle_report dbOneAd 7 5 0).2.2 = ReportReply.recorded := by
  refine ⟨?_, ?_, ?_⟩ <;> decide

/-- C5 (amended): a report against a listing id that no longer exists does
not crash — the handler is total and runs the ordinary report path — but
it is not signalled as not-found: the report row is inserted as usual, the
ads table is untouched, and the user receives the ordinary recorded or
auto-deleted signal. -/
theorem report_missing_listing (db : DB) (ad u now : Nat)
    (hgone : ∀ a ∈ db.ads, a.id ≠ ad) (hnew : countUserReports db ad u = 0) :
    (handle_report db ad u now).1.ads = db.ads ∧
    (handle_report db ad u now).1.reports = db.reports ++ [⟨ad, u, now⟩] ∧
    ((handle_report db ad u now).2.2 = ReportReply.recorded ∨
      (handle_report db ad u now).2.2 = ReportReply.autoDeleted) := by
  have hfil : db.ads.filter (fun a => !(a.id == ad)) = db.ads :=
    filter_self_of_all _ _ (fun a ha => by simpa using hgone a ha)
  by_cases hge : countReports { db with reports := db.reports ++ [⟨ad, u, now⟩] } ad ≥ 3
  · have hh : handle_report db ad u now =
        ({ db with reports := db.reports ++ [⟨ad, u, now⟩],
                   ads := db.ads.filter (fun a => !(a.id == ad)) },
         [Stmt.insertReport ad u now, Stmt.deleteAd ad],
         ReportReply.autoDeleted) := by
      simp [handle_report, hnew, hge]
    rw [hh]
    exact ⟨hfil, rfl, Or.inr rfl⟩
  · have hh : handle_report db ad u now =
        ({ db with reports := db.reports ++ [⟨ad, u, now⟩] },
         [Stmt.insertReport ad u now], ReportReply.recorded) := by
      simp [handle_report, hnew, hge]
    rw [hh]
    exact ⟨rfl, rfl, Or.inl rfl⟩

/-- Witness for C5 (amended): reporting the missing id 999 on an empty
store inserts the report, leaves ads untouched and signals recorded, via
`report_missing_listing`. -/
theorem report_missing_listing_witness :
    (handle_report dbNoAds 999 5 0).1.ads = dbNoAds.ads ∧
    (handle_report dbNoAds 999 5 0).1.reports = dbNoAds.reports ++ [⟨999, 5, 0⟩] ∧
    ((handle_report dbNoAds 999 5 0).2.2 = ReportReply.recorded ∨
      (handle_report dbNoAds 999 5 0).2.2 = ReportReply.autoDeleted) :=
  report_missing_listing dbNoAds 999 5 0 (by decide) (by decide)

/-- C6: the user-initiated mutations — the `delete:` branch and the
single-field update — both scope their statement by listing id AND
requester id, so when the requester owns no listing with the targeted id,
zero rows are affected: the store is returned unchanged by both
operations, and every statement either operation executes carries both the
listing id and the requester's user id. -/
theorem owner_scoped_mutations (today : PyDate) (db : DB) (L uid : Nat)
    (sess : Session) (msg : String)
    (hnotowner : ∀ a ∈ db.ads, a.id = L → a.user_id ≠ uid) :
    (delete_ad db L uid).1 = db ∧
    (delete_ad db L uid).2 = [Stmt.deleteAdOwned L uid] ∧
    (update_ad_value today db uid (some L) sess msg).1 = db ∧
    ((update_ad_value today db uid (some L) sess msg).2.2.1 = [] ∨
      ∃ f v, (update_ad_value today db uid (some L) sess msg).2.2.1
        = [Stmt.updateAds f v L uid]) := by
  have hcond : ∀ a ∈ db.ads, (a.id == L && a.user_id == uid) = false := by
    intro a ha
    by_cases h1 : a.id = L
    · have h2 := hnotowner a ha h1
      simp [h1, h2]
    · simp [h1]
  have hdel : db.ads.filter (fun a => !(a.id == L && a.user_id == uid)) = db.ads :=
    filter_self_of_all _ _ (fun a ha => by simp [hcond a ha])
  have hmap : ∀ g : AdRow → AdRow,
      (db.ads.map fun a => if a.id == L && a.user_id == uid then g a else a) = db.ads :=
    fun g => map_ite_eq_self _ g _ hcond
  refine ⟨?_, rfl, ?_⟩
  · show ({ db with
        ads := db.ads.filter (fun a => !(a.id == L && a.user_id == uid)) } : DB) = db
    rw [hdel]
  simp only [update_ad_value, Option.getD_some]
  split
  · exact ⟨rfl, Or.inl rfl⟩
  · split
    · exact ⟨rfl, Or.inl rfl⟩
    · split
      · exact ⟨rfl, Or.inl rfl⟩
      · split
        · exact ⟨rfl, Or.inl rfl⟩
        · refine ⟨?_, Or.inr ⟨_, _, rfl⟩⟩
          show ({ db with ads := _ } : DB) = db
          rw [hmap]

/-- Witness for C6: user 3 targets ad 7, which belongs to user 10; both
the delete and the update leave the store unchanged, via
`owner_scoped_mutations`. -/
theorem owner_scoped_mutations_witness :
    (delete_ad dbOneAd 7 3).1 = dbOneAd ∧
    (update_ad_value ⟨2026, 10, 12⟩ dbOneAd 3 (some 7) ⟨some "city", none⟩ "Tel-Aviv").1
      = dbOneAd :=
  ⟨(owner_scoped_mutations ⟨2026, 10, 12⟩ dbOneAd 7 3 ⟨some "city", none⟩ "Tel-Aviv"
      (by decide)).1,
   (owner_scoped_mutations ⟨2026, 10, 12⟩ dbOneAd 7 3 ⟨some "city", none⟩ "Tel-Aviv"
      (by decide)).2.2.1⟩

/-- C1 (code bug): `update_ad_value` never checks the allow-list — the
field name is interpolated straight into `UPDATE ads SET {field} = %s` —
so a store statement is executed for field names outside
`name|phone|area|city|capacity|date_available`.  The code's own edit
keyboard sends `field:date` (not `date_available`), so even the ordinary
date-edit flow executes a statement with a field outside the allow-list;
a forged payload such as `field:user_id` does too. -/
theorem update_field_outside_allowlist :
    allowListFields.contains "date" = false ∧
    (update_ad_value ⟨2026, 10, 12⟩ dbOneAd 10 (some 7)
        ⟨some "date", none⟩ "2099-01-01").2.2.1
      = [Stmt.updateAds "date" (PyVal.s "2099-01-01") 7 10] ∧
    allowListFields.contains "user_id" = false ∧
    (update_ad_value ⟨2026, 10, 12⟩ dbOneAd 10 (some 7)
        ⟨some "user_id", none⟩ "99").2.2.1
      = [Stmt.updateAds "user_id" (PyVal.s "99") 7 10] := by
  refine ⟨?_, ?_, ?_, ?_⟩ <;> decide

/-- Counterexample for C10: after a button-selected edit left the stale
value "צפון" in `edit_value`, the user picks the phone field and types the
valid phone 0501234567; the handler validates the stale value instead,
fails, executes no statement and writes nothing — the typed text is
ignored but the stale value is NOT written to the chosen field. -/
theorem stale_edit_value_cex :
    update_ad_value ⟨2026, 10, 12⟩ dbOneAd 10 (some 7)
        ⟨some "phone", some "צפון"⟩ "0501234567"
      = (dbOneAd, ⟨some "phone", some "צפון"⟩, [], EditOutcome.stayInvalid) := by
  decide

/-- C10 (amended): the `edit_value` key is never removed — the session
comes back from `update_ad_value` exactly as it went in — and whenever the
key is present the handler uses the stored value and ignores the typed
message entirely (the result is identical for any two typed texts); the
stale value is written to the chosen field when it passes that field's
validation (for example a passthrough field such as `city`), and otherwise
the handler re-prompts without writing. -/
theorem stale_edit_value_behavior (today : PyDate) (db : DB) (uid : Nat)
    (ae : Option Nat) (ef : Option String) (v msg msg2 : String) :
    (update_ad_value today db uid ae ⟨ef, some v⟩ msg).2.1 = ⟨ef, some v⟩ ∧
    update_ad_value today db uid ae ⟨ef, some v⟩ msg
      = update_ad_value today db uid ae ⟨ef, some v⟩ msg2 ∧
    (∀ a, ae = some a → a ≠ 0 →
      (update_ad_value today db uid ae ⟨some "city", some v⟩ msg).2.2.1
        = [Stmt.updateAds "city" (PyVal.s v) a uid]) := by
  refine ⟨?_, rfl, ?_⟩
  · simp only [update_ad_value]
    split
    · rfl
    · split
      · rfl
      · split
        · rfl
        · split
          · rfl
          · rfl
  · intro a hae h0
    subst hae
    have hz : (a == 0) = false := by simp [h0]
    have hph : ((some "city" : Option String) == some "phone") = false := by decide
    have hcap : ((some "city" : Option String) == some "capacity") = false := by decide
    have hdt : ((some "city" : Option String) == some "date") = false := by decide
    simp [update_ad_value, hz, hph, hcap, hdt]

/-- Witness for C10 (amended): with stale value "מרכז" and chosen field
`city`, a free-text edit typing "Haifa" writes the stale "מרכז", via
`stale_edit_value_behavior`. -/
theorem stale_edit_value_behavior_witness :
    (update_ad_value ⟨2026, 10, 12⟩ dbOneAd 10 (some 7)
        ⟨some "city", some "מרכז"⟩ "Haifa").2.2.1
      = [Stmt.updateAds "city" (PyVal.s "מרכז") 7 10] :=
  (stale_edit_value_behavior ⟨2026, 10, 12⟩ dbOneAd 10 (some 7)
      (some "city") "מרכז" "Haifa" "x").2.2 7 rfl (by decide)

/-- C7: every ready creation step follows the fixed order
NAME → PHONE → AREA → CITY → CAPACITY → DATE → COMPLETE: when the step's
validator rejects the input the machine stays in the same state with the
draft untouched, and when it accepts, the value is stored into the draft
and the machine advances to the next state in the order. -/
theorem creation_flow_steps (today : PyDate) (u : UserInfo) (db : DB)
    (st : ConvState) (d : Draft) (i : Input) (h : stepReady st d i = true) :
    creation_step today u db st d i =
      some (if stepAccepts today st i then (nextState st, stepStore st d i)
            else (st, d)) := by
  cases i with
  | text m =>
    cases st
    case NAME =>
      cases hv : is_valid_text (pyStrip m) <;>
        simp [creation_step, get_name, stepAccepts, stepStore, nextState, hv]
    case PHONE =>
      cases hv : is_valid_phone (pyStrip m) <;>
        simp [creation_step, get_phone, stepAccepts, stepStore, nextState, hv]
    case CITY =>
      cases hv : is_valid_text (pyStrip m) <;>
        simp [creation_step, get_city, stepAccepts, stepStore, nextState, hv]
    case CAPACITY =>
      cases hp : pyInt (pyStrip m) with
      | none => simp [creation_step, get_capacity, stepAccepts, stepStore, nextState, hp]
      | some v =>
        by_cases hb : 1 ≤ v ∧ v ≤ 100 <;>
          simp [creation_step, get_capacity, stepAccepts, stepStore, nextState, hp, hb]
    case DATE =>
      simp only [stepReady, Bool.and_eq_true] at h
      obtain ⟨⟨⟨⟨hn, hp2⟩, har⟩, hc⟩, hcap⟩ := h
      rw [Option.isSome_iff_exists] at hn hp2 har hc hcap
      obtain ⟨n, hn⟩ := hn
      obtain ⟨p, hp2⟩ := hp2
      obtain ⟨ar, har⟩ := har
      obtain ⟨c, hc⟩ := hc
      obtain ⟨cap, hcap⟩ := hcap
      cases hv : is_valid_date today (pyStrip m) <;>
        simp [creation_step, get_date, stepAccepts, stepStore, nextState, hv,
              hn, hp2, har, hc, hcap]
    all_goals simp [stepReady] at h
  | callback data =>
    cases st
    case AREA =>
      simp [creation_step, get_area, stepAccepts, stepStore, nextState]
    all_goals simp [stepReady] at h

/-- Witness for C7: from state NAME, the valid name "Dana" advances the
machine to PHONE with the name stored, via `creation_flow_steps`. -/
theorem creation_flow_steps_witness :
    creation_step ⟨2026, 10, 12⟩ ⟨10, none, none, none⟩ dbNoAds
        ConvState.NAME {} (Input.text "Dana")
      = some (ConvState.PHONE, { name := some "Dana" }) := by
  rw [creation_flow_steps ⟨2026, 10, 12⟩ ⟨10, none, none, none⟩ dbNoAds
      ConvState.NAME {} (Input.text "Dana") (by decide)]
  decide

/-- C2: on the terminal DATE step with a valid date and a fully
accumulated draft, the handler performs exactly one User upsert and one
Listing insert, both inside a single commit (the trace holds exactly one
committed batch containing exactly those two statements); the new listing
row is owned by the submitting user and carries the draft's name, phone,
area, city, capacity and the submitted date. -/
theorem create_listing_transaction (today : PyDate) (u : UserInfo) (db : DB)
    (d : Draft) (msg : String) (n p ar c : String) (cap : Int)
    (hval : is_valid_date today (pyStrip msg) = true)
    (hn : d.name = some n) (hp : d.phone = some p) (har : d.area = some ar)
    (hc : d.city = some c) (hcap : d.capacity = some cap) :
    get_date today u db d msg =
      some ({ db with users := upsertUser db.users u,
                      ads := db.ads ++ [⟨db.next_ad_id, u.id, n, p, ar, c, cap, pyStrip msg⟩],
                      next_ad_id := db.next_ad_id + 1 },
            ConvState.COMPLETE, { d with date := some (pyStrip msg) },
            [[Stmt.upsertUserStmt u.id u.username u.first_name u.last_name,
              Stmt.insertAdStmt u.id n p ar c cap (pyStrip msg)]]) := by
  simp [get_date, hval, hn, hp, har, hc, hcap]

/-- Concrete submitting user for the C2 witness. -/
def uDana : UserInfo := ⟨10, some "dana", some "Dana", none⟩

/-- Fully accumulated draft for the C2 witness. -/
def draftFull : Draft :=
  ⟨some "Dana", some "0501234567", some "צפון", some "X", some 4, none⟩

/-- Witness for C2: submitting the date 2026-10-13 on the full draft
produces the single two-statement commit and the owned listing row, via
`create_listing_transaction`. -/
theorem create_listing_transaction_witness :
    get_date ⟨2026, 10, 12⟩ uDana dbNoAds draftFull "2026-10-13"
      = some ({ users := [⟨10, some "dana", some "Dana", none⟩],
                ads := [⟨1, 10, "Dana", "0501234567", "צפון", "X", 4, "2026-10-13"⟩],
                reports := [], next_ad_id := 2 },
              ConvState.COMPLETE,
              ⟨some "Dana", some "0501234567", some "צפון", some "X", some 4,
                some "2026-10-13"⟩,
              [[Stmt.upsertUserStmt 10 (some "dana") (some "Dana") none,
                Stmt.insertAdStmt 10 "Dana" "0501234567" "צפון" "X" 4 "2026-10-13"]]) := by
  rw [create_listing_transaction ⟨2026, 10, 12⟩ uDana dbNoAds draftFull "2026-10-13"
      "Dana" "0501234567" "צפון" "X" 4 (by decide) rfl rfl rfl rfl rfl]
  decide

end Teleconnect
